import Mathlib

/-!
Shallow embedding of the mullion-widget beam-analysis core.

Sources embedded:
  - analysis/beam_analysis.py: compute_wind_barrier_uniform_and_point,
    compute_deflection_from_M, apply_load_factors, analyze_uls_cases,
    analyze_sls_deflection_requirement, compute_required_section_modulus
  - inputs/loading.py (latest revision): Load, LoadKind, LoadingInputs.to_loads
  - inputs/load_cases.py: LoadCombination, LoadCaseSet
  - input/geometry.py: Geometry

Modelling conventions: Python floats are modelled as exact rationals; numpy
arrays of length n are modelled as functions from sample index to a rational,
read at indices below n.  Constructor validation (raising ValueError on
negative magnitudes and similar) is upstream input checking and is not part of
the analysis functions modelled here; the analysis itself raises nothing.
-/

set_option maxHeartbeats 1000000

namespace MullionWidget

/-- Load kinds, from inputs/loading.py class LoadKind. -/
inductive LoadKind where
  | wind
  | barrier
  | dead
deriving DecidableEq, Inhabited

/-- The two load distributions accepted by Load.__post_init__
("uniform" or "point"). -/
inductive Distribution where
  | uniform
  | point
deriving DecidableEq, Inhabited

/-- inputs/loading.py dataclass Load.  magnitude is N/mm for uniform loads and
N for point loads; height_mm is carried for visualization only. -/
structure Load where
  kind : LoadKind
  magnitude : ℚ
  distribution : Distribution
  height_mm : Option ℚ
deriving DecidableEq, Inhabited

/-- True when the load distribution is "uniform". -/
def Load.isUniform (l : Load) : Bool :=
  match l.distribution with
  | Distribution.uniform => true
  | Distribution.point => false

/-- True when the load distribution is "point". -/
def Load.isPoint (l : Load) : Bool :=
  match l.distribution with
  | Distribution.uniform => false
  | Distribution.point => true

/-- inputs/load_cases.py dataclass LoadCombination. -/
structure LoadCombination where
  name : String
  wind_factor : ℚ
  barrier_factor : ℚ
  case_type : String
deriving DecidableEq, Inhabited

/-- inputs/load_cases.py dataclass LoadCaseSet. -/
structure LoadCaseSet where
  uls_cases : List LoadCombination
  sls_cases : List LoadCombination
deriving DecidableEq, Inhabited

/-- input/geometry.py dataclass Geometry. -/
structure Geometry where
  span_mm : ℚ
  bay_width_mm : ℚ
deriving DecidableEq, Inhabited

/-- inputs/loading.py dataclass LoadingInputs. -/
structure LoadingInputs where
  include_wind : Bool
  wind_pressure_kpa : ℚ
  bay_width_mm : ℚ
  include_barrier : Bool
  barrier_load_kn_per_m : ℚ
  barrier_height_mm : ℚ
deriving DecidableEq, Inhabited

/-- LoadingInputs.wind_load_n_per_mm: wind pressure (kPa) times bay width (mm)
times 10^-3 gives N/mm; 0 when wind is excluded. -/
def LoadingInputs.wind_load_n_per_mm (li : LoadingInputs) : ℚ :=
  if li.include_wind then li.wind_pressure_kpa * li.bay_width_mm * (1 / 1000) else 0

/-- LoadingInputs.barrier_load_n: barrier line load (kN/m) times bay width (mm)
gives the total point force in N; 0 when the barrier is excluded. -/
def LoadingInputs.barrier_load_n (li : LoadingInputs) : ℚ :=
  if li.include_barrier then li.barrier_load_kn_per_m * li.bay_width_mm else 0

/-- LoadingInputs.to_loads from inputs/loading.py (the latest revision):
wind becomes a uniform Load in N/mm, barrier becomes a point Load carrying the
total force in N together with its height.  (The superseded revision in
input/loading.py emitted the barrier as a uniform load instead.) -/
def LoadingInputs.to_loads (li : LoadingInputs) : List Load :=
  (if li.include_wind then
    [Load.mk LoadKind.wind li.wind_load_n_per_mm Distribution.uniform none]
   else []) ++
  (if li.include_barrier then
    [Load.mk LoadKind.barrier li.barrier_load_n Distribution.point
      (some li.barrier_height_mm)]
   else [])

/-! ## Numeric primitives shared by the solver and the integrator -/

/-- Cumulative trapezoidal integration with constant sample spacing dx,
as performed by the three identical loops in beam_analysis.py:
out[0] = 0 and out[i] = out[i-1] + (f[i-1] + f[i]) * dx / 2. -/
def cumtrapz (dx : ℚ) (f : ℕ → ℚ) : ℕ → ℚ
  | 0 => 0
  | i + 1 => cumtrapz dx f i + (f i + f (i + 1)) * dx / 2

/-- np.max(np.abs(f)) over the first n samples (n at least 1 in every use;
all compared values are absolute values, so the 0 seed is inert). -/
def maxAbsOver (f : ℕ → ℚ) : ℕ → ℚ
  | 0 => 0
  | n + 1 => max (maxAbsOver f n) |f n|

/-! ## Beam solver: compute_wind_barrier_uniform_and_point -/

/-- Span converted from mm to metres: L = span_mm / 1000.0. -/
def spanM (span_mm : ℚ) : ℚ := span_mm / 1000

/-- Sample i of np.linspace(0, L, n_points): x_i = L * i / (n_points - 1). -/
def xAt (span_mm : ℚ) (n_points : ℕ) (i : ℕ) : ℚ :=
  spanM span_mm * i / ((n_points - 1 : ℕ) : ℚ)

/-- The uniform-load magnitudes converted from N/mm to N/m. -/
def uniformLoadsOf (loads : List Load) : List ℚ :=
  (loads.filter Load.isUniform).map (fun l => l.magnitude * 1000)

/-- The point loads paired with their application point, which the solver
always takes to be midspan (a_m = L / 2.0). -/
def pointLoadsOf (span_mm : ℚ) (loads : List Load) : List (ℚ × ℚ) :=
  (loads.filter Load.isPoint).map (fun l => (l.magnitude, spanM span_mm / 2))

/-- total_load = sum(w * L) + sum(P). -/
def totalLoadOf (span_mm : ℚ) (loads : List Load) : ℚ :=
  ((uniformLoadsOf loads).map (fun w => w * spanM span_mm)).sum +
    ((pointLoadsOf span_mm loads).map Prod.fst).sum

/-- total_moment = sum(w * L * (L / 2)) + sum(P * a), moments about the left
support. -/
def totalMomentOf (span_mm : ℚ) (loads : List Load) : ℚ :=
  ((uniformLoadsOf loads).map
      (fun w => w * spanM span_mm * (spanM span_mm / 2))).sum +
    ((pointLoadsOf span_mm loads).map (fun pa => pa.1 * pa.2)).sum

/-- Right reaction RB = total_moment / L when L > 0, else the 0 fallback. -/
def RBOf (span_mm : ℚ) (loads : List Load) : ℚ :=
  if 0 < spanM span_mm then totalMomentOf span_mm loads / spanM span_mm else 0

/-- Left reaction RA = total_load - RB when L > 0, else the 0 fallback. -/
def RAOf (span_mm : ℚ) (loads : List Load) : ℚ :=
  if 0 < spanM span_mm then totalLoadOf span_mm loads - RBOf span_mm loads else 0

/-- Shear sample V[i] = RA - sum(w * x_i) - sum of the point loads already
passed (inclusive test x_i >= a). -/
def shearAt (span_mm : ℚ) (loads : List Load) (n_points : ℕ) (i : ℕ) : ℚ :=
  RAOf span_mm loads -
    ((uniformLoadsOf loads).map (fun w => w * xAt span_mm n_points i)).sum -
    (((pointLoadsOf span_mm loads).filter
        (fun pa => decide (pa.2 ≤ xAt span_mm n_points i))).map Prod.fst).sum

/-- Result record of compute_wind_barrier_uniform_and_point. -/
structure BeamResult where
  x_m : ℕ → ℚ
  V : ℕ → ℚ
  M : ℕ → ℚ
  RA : ℚ
  RB : ℚ

/-- beam_analysis.py compute_wind_barrier_uniform_and_point: reactions by
static equilibrium, shear pointwise, moment by cumulative trapezoidal
integration of the shear with dx = x_m[1] - x_m[0] and M[0] = 0. -/
def compute_wind_barrier_uniform_and_point
    (span_mm : ℚ) (loads : List Load) (n_points : ℕ) : BeamResult :=
  BeamResult.mk
    (xAt span_mm n_points)
    (shearAt span_mm loads n_points)
    (cumtrapz (xAt span_mm n_points 1 - xAt span_mm n_points 0)
      (shearAt span_mm loads n_points))
    (RAOf span_mm loads)
    (RBOf span_mm loads)

/-! ## Deflection integrator: compute_deflection_from_M -/

/-- Result record of compute_deflection_from_M. -/
structure DeflectionResult where
  v : ℕ → ℚ
  C1 : ℚ
  C2 : ℚ

/-- Curvature kappa = M / (E * I), sample by sample. -/
def kappaOf (M : ℕ → ℚ) (E I : ℚ) : ℕ → ℚ := fun i => M i / (E * I)

/-- Raw slope theta: first cumulative trapezoidal integration of the
curvature, using dx = x_m[1] - x_m[0]. -/
def thetaOf (x M : ℕ → ℚ) (E I : ℚ) : ℕ → ℚ :=
  cumtrapz (x 1 - x 0) (kappaOf M E I)

/-- Raw deflection v_raw: second cumulative trapezoidal integration. -/
def vRawOf (x M : ℕ → ℚ) (E I : ℚ) : ℕ → ℚ :=
  cumtrapz (x 1 - x 0) (thetaOf x M E I)

/-- Integration constant C2 = -v_raw[0]. -/
def C2Of (x M : ℕ → ℚ) (E I : ℚ) : ℚ := -vRawOf x M E I 0

/-- Integration constant C1 = -(v_raw[-1] + C2) / L if L > 0 else 0.0, with
L = x_m[-1] - x_m[0] and the last sample at index n - 1. -/
def C1Of (n : ℕ) (x M : ℕ → ℚ) (E I : ℚ) : ℚ :=
  if 0 < x (n - 1) - x 0 then
    -(vRawOf x M E I (n - 1) + C2Of x M E I) / (x (n - 1) - x 0)
  else 0

/-- beam_analysis.py compute_deflection_from_M: curvature kappa = M / (E * I),
two cumulative trapezoidal integrations (slope theta, raw deflection v_raw),
then the boundary-condition corrections C2 = -v_raw[0],
C1 = -(v_raw[-1] + C2) / L if L > 0 else 0 with L = x_m[-1] - x_m[0],
and v = v_raw + C1 * x_m + C2.  n is the common array length. -/
def compute_deflection_from_M
    (n : ℕ) (x M : ℕ → ℚ) (E I : ℚ) : DeflectionResult :=
  DeflectionResult.mk
    (fun i => vRawOf x M E I i + C1Of n x M E I * x i + C2Of x M E I)
    (C1Of n x M E I) (C2Of x M E I)

/-! ## Load factoring: apply_load_factors -/

/-- beam_analysis.py apply_load_factors: deep-copy each load and scale its
magnitude by wind_factor when the kind string contains WIND, by barrier_factor
when it contains BARRIER, and leave every other kind (DEAD) untouched. -/
def apply_load_factors
    (loads : List Load) (wind_factor barrier_factor : ℚ) : List Load :=
  loads.map (fun load =>
    match load.kind with
    | LoadKind.wind =>
        Load.mk load.kind (load.magnitude * wind_factor) load.distribution
          load.height_mm
    | LoadKind.barrier =>
        Load.mk load.kind (load.magnitude * barrier_factor) load.distribution
          load.height_mm
    | LoadKind.dead => load)

/-! ## Governing-case tracking -/

/-- The running-maximum update shared by analyze_uls_cases and
analyze_sls_deflection_requirement: starting from case None and value 0.0,
replace the record only on strict improvement (new > current best). -/
def govFold (init : Option String × ℚ) (items : List (String × ℚ)) :
    Option String × ℚ :=
  items.foldl (fun acc it => if acc.2 < it.2 then (some it.1, it.2) else acc) init

/-! ## ULS analysis: analyze_uls_cases -/

/-- Per-case maxima stored by analyze_uls_cases (the full arrays are also
stored by the Python code; the claims only consult the maxima). -/
structure ULSCaseResult where
  M_max : ℚ
  V_max : ℚ
deriving DecidableEq

/-- One iteration of the analyze_uls_cases loop: factor the base loads,
run the solver, and take np.max(np.abs(.)) of moment and shear. -/
def ulsCase (span_mm : ℚ) (base_loads : List Load) (n_points : ℕ)
    (c : LoadCombination) : ULSCaseResult :=
  let factored := apply_load_factors base_loads c.wind_factor c.barrier_factor
  let a := compute_wind_barrier_uniform_and_point span_mm factored n_points
  ULSCaseResult.mk (maxAbsOver a.M n_points) (maxAbsOver a.V n_points)

/-- Result record of analyze_uls_cases: per-case results keyed by case name
plus the governing records for M_max and V_max. -/
structure ULSResults where
  cases : List (String × ULSCaseResult)
  case_M : Option String
  M_max_overall : ℚ
  case_V : Option String
  V_max_overall : ℚ
deriving DecidableEq

/-- beam_analysis.py analyze_uls_cases: iterate the ULS combinations,
recording each case and tracking the governing case for M_max and V_max with
strict-improvement updates seeded at (None, 0.0). -/
def analyze_uls_cases (geom : Geometry) (loading_inputs : LoadingInputs)
    (load_case_set : LoadCaseSet) (n_points : ℕ) : ULSResults :=
  let base_loads := loading_inputs.to_loads
  let per := load_case_set.uls_cases.map
    (fun c => (c.name, ulsCase geom.span_mm base_loads n_points c))
  let govM := govFold (none, 0) (per.map (fun p => (p.1, p.2.M_max)))
  let govV := govFold (none, 0) (per.map (fun p => (p.1, p.2.V_max)))
  ULSResults.mk per govM.1 govM.2 govV.1 govV.2

/-! ## SLS analysis: analyze_sls_deflection_requirement -/

/-- The required-I formula at the heart of the SLS loop:
I_req = v_unit_max / v_limit_m when v_limit_m > 0 and v_unit_max > 0,
else the sentinel 0.0. -/
def iReqOf (v_limit_m v_unit_max : ℚ) : ℚ :=
  if 0 < v_limit_m ∧ 0 < v_unit_max then v_unit_max / v_limit_m else 0

/-- Per-case record stored by analyze_sls_deflection_requirement. -/
structure SLSCaseResult where
  I_req_m4 : ℚ
  v_unit_max_m : ℚ
deriving DecidableEq

/-- One iteration of the analyze_sls_deflection_requirement loop: factor the
loads, solve the beam, integrate deflection with the unit I = 1.0, take the
maximum absolute deflection, and apply the required-I formula. -/
def slsCase (span_mm : ℚ) (base_loads : List Load) (E v_limit_m : ℚ)
    (n_points : ℕ) (c : LoadCombination) : SLSCaseResult :=
  let factored := apply_load_factors base_loads c.wind_factor c.barrier_factor
  let a := compute_wind_barrier_uniform_and_point span_mm factored n_points
  let d := compute_deflection_from_M n_points a.x_m a.M E 1
  let v_unit_max := maxAbsOver d.v n_points
  SLSCaseResult.mk (iReqOf v_limit_m v_unit_max) v_unit_max

/-- Result record of analyze_sls_deflection_requirement. -/
structure SLSResults where
  cases : List (String × SLSCaseResult)
  gov_case : Option String
  I_req_governing : ℚ
  v_limit_m : ℚ
deriving DecidableEq

/-- beam_analysis.py analyze_sls_deflection_requirement: convert the limit to
metres, run each SLS combination, and track the governing required I with
strict-improvement updates seeded at (None, 0.0). -/
def analyze_sls_deflection_requirement (geom : Geometry)
    (loading_inputs : LoadingInputs) (load_case_set : LoadCaseSet)
    (E deflection_limit_mm : ℚ) (n_points : ℕ) : SLSResults :=
  let base_loads := loading_inputs.to_loads
  let v_limit_m := deflection_limit_mm / 1000
  let per := load_case_set.sls_cases.map
    (fun c => (c.name, slsCase geom.span_mm base_loads E v_limit_m n_points c))
  let gov := govFold (none, 0) (per.map (fun p => (p.1, p.2.I_req_m4)))
  SLSResults.mk per gov.1 gov.2 v_limit_m

/-! ## Required section modulus -/

/-- beam_analysis.py compute_required_section_modulus: M_max / sigma_allow for
positive allowable stress, and the float(inf) sentinel (modelled as the top
element) when sigma_allow <= 0. -/
def compute_required_section_modulus (M_max_Nm sigma_allow_Pa : ℚ) :
    WithTop ℚ :=
  if sigma_allow_Pa ≤ 0 then ⊤
  else ((M_max_Nm / sigma_allow_Pa : ℚ) : WithTop ℚ)

/-! ## Lemma kit -/

theorem cumtrapz_zero (dx : ℚ) (f : ℕ → ℚ) : cumtrapz dx f 0 = 0 := rfl

theorem cumtrapz_succ (dx : ℚ) (f : ℕ → ℚ) (i : ℕ) :
    cumtrapz dx f (i + 1) = cumtrapz dx f i + (f i + f (i + 1)) * dx / 2 := rfl

theorem cumtrapz_congr (dx : ℚ) (f g : ℕ → ℚ) (i : ℕ)
    (h : ∀ j, j ≤ i → f j = g j) : cumtrapz dx f i = cumtrapz dx g i := by
  induction i with
  | zero => rfl
  | succ k ih =>
      rw [cumtrapz_succ, cumtrapz_succ,
        ih (fun j hj => h j (le_trans hj (Nat.le_succ k))),
        h k (Nat.le_succ k), h (k + 1) le_rfl]

theorem cumtrapz_div (dx c : ℚ) (f : ℕ → ℚ) (i : ℕ) :
    cumtrapz dx (fun j => f j / c) i = cumtrapz dx f i / c := by
  induction i with
  | zero => rw [cumtrapz_zero, cumtrapz_zero, zero_div]
  | succ k ih => rw [cumtrapz_succ, cumtrapz_succ, ih]; ring

theorem maxAbsOver_congr (f g : ℕ → ℚ) (n : ℕ) (h : ∀ i, i < n → f i = g i) :
    maxAbsOver f n = maxAbsOver g n := by
  induction n with
  | zero => rfl
  | succ k ih =>
      show max (maxAbsOver f k) |f k| = max (maxAbsOver g k) |g k|
      rw [ih (fun i hi => h i (Nat.lt_succ_of_lt hi)), h k (Nat.lt_succ_self k)]

theorem maxAbsOver_nonneg (f : ℕ → ℚ) (n : ℕ) : 0 ≤ maxAbsOver f n := by
  induction n with
  | zero => exact le_refl 0
  | succ k ih => exact le_trans ih (le_max_left _ _)

theorem le_maxAbsOver (f : ℕ → ℚ) (n i : ℕ) (h : i < n) :
    |f i| ≤ maxAbsOver f n := by
  induction n with
  | zero => exact absurd h (Nat.not_lt_zero i)
  | succ k ih =>
      show |f i| ≤ max (maxAbsOver f k) |f k|
      rcases Nat.lt_succ_iff_lt_or_eq.mp h with h1 | h1
      · exact le_trans (ih h1) (le_max_left _ _)
      · rw [h1]; exact le_max_right _ _

theorem maxAbsOver_le (f : ℕ → ℚ) (n : ℕ) (B : ℚ) (hB : 0 ≤ B)
    (h : ∀ i, i < n → |f i| ≤ B) : maxAbsOver f n ≤ B := by
  induction n with
  | zero => exact hB
  | succ k ih =>
      exact max_le (ih (fun i hi => h i (Nat.lt_succ_of_lt hi)))
        (h k (Nat.lt_succ_self k))

theorem maxAbsOver_div (f : ℕ → ℚ) (c : ℚ) (hc : 0 < c) (n : ℕ) :
    maxAbsOver (fun i => f i / c) n = maxAbsOver f n / c := by
  induction n with
  | zero => rw [maxAbsOver, maxAbsOver, zero_div]
  | succ k ih =>
      show max (maxAbsOver (fun i => f i / c) k) |f k / c|
          = max (maxAbsOver f k) |f k| / c
      rw [ih, abs_div, abs_of_pos hc, max_div_div_right (le_of_lt hc)]

theorem kappaOf_scale (M : ℕ → ℚ) (E I : ℚ) (j : ℕ) :
    kappaOf M E I j = kappaOf M E 1 j / I := by
  unfold kappaOf
  rw [div_div, mul_one]

theorem thetaOf_scale (x M : ℕ → ℚ) (E I : ℚ) (j : ℕ) :
    thetaOf x M E I j = thetaOf x M E 1 j / I := by
  unfold thetaOf
  rw [← cumtrapz_div]
  exact cumtrapz_congr _ _ _ _ (fun k _ => kappaOf_scale M E I k)

theorem vRawOf_scale (x M : ℕ → ℚ) (E I : ℚ) (j : ℕ) :
    vRawOf x M E I j = vRawOf x M E 1 j / I := by
  unfold vRawOf
  rw [← cumtrapz_div]
  exact cumtrapz_congr _ _ _ _ (fun k _ => thetaOf_scale x M E I k)

theorem C2Of_scale (x M : ℕ → ℚ) (E I : ℚ) :
    C2Of x M E I = C2Of x M E 1 / I := by
  unfold C2Of
  rw [vRawOf_scale, neg_div]

theorem C1Of_scale (n : ℕ) (x M : ℕ → ℚ) (E I : ℚ) :
    C1Of n x M E I = C1Of n x M E 1 / I := by
  unfold C1Of
  split
  · rw [vRawOf_scale, C2Of_scale]; ring
  · rw [zero_div]

theorem compute_deflection_scale (n : ℕ) (x M : ℕ → ℚ) (E I : ℚ) (i : ℕ) :
    (compute_deflection_from_M n x M E I).v i
      = (compute_deflection_from_M n x M E 1).v i / I := by
  show vRawOf x M E I i + C1Of n x M E I * x i + C2Of x M E I
      = (vRawOf x M E 1 i + C1Of n x M E 1 * x i + C2Of x M E 1) / I
  rw [vRawOf_scale, C1Of_scale, C2Of_scale]
  ring

theorem iReqOf_pos (v_limit v_unit_max : ℚ) (h1 : 0 < v_limit)
    (h2 : 0 < v_unit_max) : iReqOf v_limit v_unit_max = v_unit_max / v_limit := by
  unfold iReqOf
  rw [if_pos ⟨h1, h2⟩]

theorem iReqOf_sentinel (v_limit v_unit_max : ℚ)
    (h : v_limit ≤ 0 ∨ v_unit_max ≤ 0) : iReqOf v_limit v_unit_max = 0 := by
  unfold iReqOf
  rw [if_neg]
  rcases h with h | h
  · exact fun hc => absurd hc.1 (not_lt.mpr h)
  · exact fun hc => absurd hc.2 (not_lt.mpr h)

/-! ## Claim theorems -/

/-- C2: for every span_mm > 0 and every list of uniform and point loads, the
reactions of compute_wind_barrier_uniform_and_point satisfy static
equilibrium: RB = (sum of w * L * L / 2 + sum of P * a) / L, RA = total load
minus RB, and hence RA + RB equals the total applied load. -/
theorem reactions_static_equilibrium (span_mm : ℚ) (loads : List Load)
    (n_points : ℕ) (hspan : 0 < span_mm) :
    (compute_wind_barrier_uniform_and_point span_mm loads n_points).RB
        = totalMomentOf span_mm loads / spanM span_mm
    ∧ (compute_wind_barrier_uniform_and_point span_mm loads n_points).RA
        = totalLoadOf span_mm loads
          - (compute_wind_barrier_uniform_and_point span_mm loads n_points).RB
    ∧ (compute_wind_barrier_uniform_and_point span_mm loads n_points).RA
        + (compute_wind_barrier_uniform_and_point span_mm loads n_points).RB
        = totalLoadOf span_mm loads := by
  have hL : 0 < spanM span_mm := by
    unfold spanM
    positivity
  show RBOf span_mm loads = totalMomentOf span_mm loads / spanM span_mm
      ∧ RAOf span_mm loads = totalLoadOf span_mm loads - RBOf span_mm loads
      ∧ RAOf span_mm loads + RBOf span_mm loads = totalLoadOf span_mm loads
  unfold RAOf RBOf
  rw [if_pos hL, if_pos hL]
  exact ⟨rfl, rfl, by ring⟩

/-- Witness for reactions_static_equilibrium at span 2000 mm with one uniform
and one point load. -/
theorem reactions_static_equilibrium_witness :
    (0 : ℚ) < 2000
    ∧ ((compute_wind_barrier_uniform_and_point 2000
          [Load.mk LoadKind.wind 3 Distribution.uniform none,
           Load.mk LoadKind.barrier 700 Distribution.point (some 1100)] 5).RB
        = totalMomentOf 2000
            [Load.mk LoadKind.wind 3 Distribution.uniform none,
             Load.mk LoadKind.barrier 700 Distribution.point (some 1100)]
          / spanM 2000
      ∧ (compute_wind_barrier_uniform_and_point 2000
          [Load.mk LoadKind.wind 3 Distribution.uniform none,
           Load.mk LoadKind.barrier 700 Distribution.point (some 1100)] 5).RA
        = totalLoadOf 2000
            [Load.mk LoadKind.wind 3 Distribution.uniform none,
             Load.mk LoadKind.barrier 700 Distribution.point (some 1100)]
          - (compute_wind_barrier_uniform_and_point 2000
              [Load.mk LoadKind.wind 3 Distribution.uniform none,
               Load.mk LoadKind.barrier 700 Distribution.point (some 1100)] 5).RB
      ∧ (compute_wind_barrier_uniform_and_point 2000
          [Load.mk LoadKind.wind 3 Distribution.uniform none,
           Load.mk LoadKind.barrier 700 Distribution.point (some 1100)] 5).RA
        + (compute_wind_barrier_uniform_and_point 2000
            [Load.mk LoadKind.wind 3 Distribution.uniform none,
             Load.mk LoadKind.barrier 700 Distribution.point (some 1100)] 5).RB
        = totalLoadOf 2000
            [Load.mk LoadKind.wind 3 Distribution.uniform none,
             Load.mk LoadKind.barrier 700 Distribution.point (some 1100)]) :=
  ⟨by norm_num,
   reactions_static_equilibrium 2000
     [Load.mk LoadKind.wind 3 Distribution.uniform none,
      Load.mk LoadKind.barrier 700 Distribution.point (some 1100)] 5
     (by norm_num)⟩

/-- C7: with include_barrier set, to_loads emits the barrier input of b kN/m
as a single point Load of magnitude b * bay_width_mm newtons, alongside the
wind uniform Load of wind_pressure_kpa * bay_width_mm * 10^-3 N/mm whenever
wind is included. -/
theorem to_loads_barrier_is_point (li : LoadingInputs)
    (hb : li.include_barrier = true) :
    li.to_loads =
      (if li.include_wind then
        [Load.mk LoadKind.wind
          (li.wind_pressure_kpa * li.bay_width_mm * (1 / 1000))
          Distribution.uniform none]
       else []) ++
      [Load.mk LoadKind.barrier (li.barrier_load_kn_per_m * li.bay_width_mm)
        Distribution.point (some li.barrier_height_mm)] := by
  unfold LoadingInputs.to_loads LoadingInputs.wind_load_n_per_mm
    LoadingInputs.barrier_load_n
  rw [hb]
  by_cases hw : li.include_wind <;> simp [hw]

/-- Witness for to_loads_barrier_is_point on concrete loading inputs. -/
theorem to_loads_barrier_is_point_witness :
    (LoadingInputs.mk true 1 2000 true 1 1100).include_barrier = true
    ∧ (LoadingInputs.mk true 1 2000 true 1 1100).to_loads =
      (if (LoadingInputs.mk true 1 2000 true 1 1100).include_wind then
        [Load.mk LoadKind.wind
          ((LoadingInputs.mk true 1 2000 true 1 1100).wind_pressure_kpa
            * (LoadingInputs.mk true 1 2000 true 1 1100).bay_width_mm * (1 / 1000))
          Distribution.uniform none]
       else []) ++
      [Load.mk LoadKind.barrier
        ((LoadingInputs.mk true 1 2000 true 1 1100).barrier_load_kn_per_m
          * (LoadingInputs.mk true 1 2000 true 1 1100).bay_width_mm)
        Distribution.point
        (some (LoadingInputs.mk true 1 2000 true 1 1100).barrier_height_mm)] :=
  ⟨rfl, to_loads_barrier_is_point (LoadingInputs.mk true 1 2000 true 1 1100) rfl⟩

/-- C8: apply_load_factors scales WIND magnitudes by wind_factor and BARRIER
magnitudes by barrier_factor, and leaves every other load (in particular
DEAD loads) unchanged, preserving kind, distribution and height. -/
theorem apply_load_factors_by_kind (loads : List Load) (wf bf : ℚ)
    (hwf : 0 ≤ wf) (hbf : 0 ≤ bf) (i : ℕ) (hi : i < loads.length) :
    (apply_load_factors loads wf bf).length = loads.length
    ∧ ∃ l l', loads.get? i = some l
        ∧ (apply_load_factors loads wf bf).get? i = some l'
        ∧ l'.kind = l.kind
        ∧ l'.distribution = l.distribution
        ∧ l'.height_mm = l.height_mm
        ∧ (l.kind = LoadKind.wind → l'.magnitude = l.magnitude * wf)
        ∧ (l.kind = LoadKind.barrier → l'.magnitude = l.magnitude * bf)
        ∧ (l.kind = LoadKind.dead → l'.magnitude = l.magnitude) := by
  refine ⟨by simp [apply_load_factors], ?_⟩
  have hx : loads.get? i = some (loads.get ⟨i, hi⟩) := List.get?_eq_get hi
  rcases hget : loads.get ⟨i, hi⟩ with ⟨k, m, d, o⟩
  rw [hget] at hx
  cases k with
  | wind =>
      refine ⟨Load.mk LoadKind.wind m d o, Load.mk LoadKind.wind (m * wf) d o,
        hx, ?_, rfl, rfl, rfl, fun _ => rfl, ?_, ?_⟩
      · unfold apply_load_factors
        rw [List.get?_map, hx]
        rfl
      · intro h; simp at h
      · intro h; simp at h
  | barrier =>
      refine ⟨Load.mk LoadKind.barrier m d o,
        Load.mk LoadKind.barrier (m * bf) d o,
        hx, ?_, rfl, rfl, rfl, ?_, fun _ => rfl, ?_⟩
      · unfold apply_load_factors
        rw [List.get?_map, hx]
        rfl
      · intro h; simp at h
      · intro h; simp at h
  | dead =>
      refine ⟨Load.mk LoadKind.dead m d o, Load.mk LoadKind.dead m d o,
        hx, ?_, rfl, rfl, rfl, ?_, ?_, fun _ => rfl⟩
      · unfold apply_load_factors
        rw [List.get?_map, hx]
        rfl
      · intro h; simp at h
      · intro h; simp at h

/-- Witness for apply_load_factors_by_kind at a DEAD load with factors 2, 3. -/
theorem apply_load_factors_by_kind_witness :
    ((0 : ℚ) ≤ 2 ∧ (0 : ℚ) ≤ 3
      ∧ 0 < [Load.mk LoadKind.dead 5 Distribution.uniform none].length)
    ∧ ((apply_load_factors [Load.mk LoadKind.dead 5 Distribution.uniform none]
          2 3).length
        = [Load.mk LoadKind.dead 5 Distribution.uniform none].length
      ∧ ∃ l l', [Load.mk LoadKind.dead 5 Distribution.uniform none].get? 0 = some l
          ∧ (apply_load_factors
              [Load.mk LoadKind.dead 5 Distribution.uniform none] 2 3).get? 0
            = some l'
          ∧ l'.kind = l.kind
          ∧ l'.distribution = l.distribution
          ∧ l'.height_mm = l.height_mm
          ∧ (l.kind = LoadKind.wind → l'.magnitude = l.magnitude * 2)
          ∧ (l.kind = LoadKind.barrier → l'.magnitude = l.magnitude * 3)
          ∧ (l.kind = LoadKind.dead → l'.magnitude = l.magnitude)) :=
  ⟨⟨by norm_num, by norm_num, by decide⟩,
   apply_load_factors_by_kind
     [Load.mk LoadKind.dead 5 Distribution.uniform none] 2 3
     (by norm_num) (by norm_num) 0 (by decide)⟩

/-- C9: compute_required_section_modulus returns M_max / sigma_allow for
positive allowable stress, and the infinite sentinel (not zero, and without
raising) when sigma_allow is nonpositive. -/
theorem required_section_modulus_spec (M_max sigma : ℚ) :
    (0 < sigma → compute_required_section_modulus M_max sigma
        = ((M_max / sigma : ℚ) : WithTop ℚ))
    ∧ (sigma ≤ 0 → compute_required_section_modulus M_max sigma = ⊤
        ∧ compute_required_section_modulus M_max sigma ≠ ((0 : ℚ) : WithTop ℚ)) := by
  constructor
  · intro h
    unfold compute_required_section_modulus
    rw [if_neg (not_le.mpr h)]
  · intro h
    unfold compute_required_section_modulus
    rw [if_pos h]
    exact ⟨rfl, WithTop.top_ne_coe⟩

/-- Witness for required_section_modulus_spec at sigma = 2 and sigma = -1. -/
theorem required_section_modulus_spec_witness :
    ((0 : ℚ) < 2 ∧ compute_required_section_modulus 3 2
        = ((3 / 2 : ℚ) : WithTop ℚ))
    ∧ ((-1 : ℚ) ≤ 0 ∧ compute_required_section_modulus 3 (-1) = ⊤) :=
  ⟨⟨by norm_num, (required_section_modulus_spec 3 2).1 (by norm_num)⟩,
   ⟨by norm_num, ((required_section_modulus_spec 3 (-1)).2 (by norm_num)).1⟩⟩

/-- Concrete geometry used to exercise the governing-selection logic:
span 4000 mm, bay width 1000 mm. -/
def demoGeom : Geometry := Geometry.mk 4000 1000

/-- Concrete loading used to exercise the governing-selection logic: wind only
at 1 kPa over a 1000 mm bay (1 N/mm uniform), no barrier. -/
def demoLoading : LoadingInputs := LoadingInputs.mk true 1 1000 false 1 1100

/-- Four ULS combinations whose wind factors 10, 15, 15, 8 make the per-case
maxima proportional to 10, 15, 15, 8. -/
def demoULSCases : List LoadCombination :=
  [LoadCombination.mk "A" 10 0 "ULS", LoadCombination.mk "B" 15 0 "ULS",
   LoadCombination.mk "C" 15 0 "ULS", LoadCombination.mk "D" 8 0 "ULS"]

/-- Load-case set holding the four demo ULS combinations. -/
def demoLCS : LoadCaseSet := LoadCaseSet.mk demoULSCases []

/-- C1: analyze_uls_cases tracks the governing case through govFold, which
updates only on strict improvement: appending a case whose maximum does not
exceed the current best leaves the record unchanged, the first case with a
positive maximum establishes the baseline, and on per-case maxima
proportional to 10, 15, 15, 8 the recorded governing case for both M_max and
V_max is the first case achieving 15 (case B, not case C). -/
theorem uls_governing_first_strict_max (rs : List (String × ℚ))
    (r : String × ℚ) (h : r.2 ≤ (govFold (none, 0) rs).2) :
    govFold (none, 0) (rs ++ [r]) = govFold (none, 0) rs
    ∧ (∀ r0 : String × ℚ, 0 < r0.2 →
        govFold (none, 0) [r0] = (some r0.1, r0.2))
    ∧ (analyze_uls_cases demoGeom demoLoading demoLCS 5).case_M = some "B"
    ∧ (analyze_uls_cases demoGeom demoLoading demoLCS 5).case_V = some "B" := by
  have hbase : demoLoading.to_loads
      = [Load.mk LoadKind.wind 1 Distribution.uniform none] := by
    norm_num [demoLoading, LoadingInputs.to_loads,
      LoadingInputs.wind_load_n_per_mm, LoadingInputs.barrier_load_n]
  have hA : ulsCase 4000 [Load.mk LoadKind.wind 1 Distribution.uniform none] 5
      (LoadCombination.mk "A" 10 0 "ULS") = ULSCaseResult.mk 20000 20000 := by
    norm_num [ulsCase, apply_load_factors, compute_wind_barrier_uniform_and_point,
      shearAt, RAOf, RBOf, totalLoadOf, totalMomentOf, uniformLoadsOf,
      pointLoadsOf, Load.isUniform, Load.isPoint, xAt, spanM, cumtrapz, maxAbsOver]
  have hB : ulsCase 4000 [Load.mk LoadKind.wind 1 Distribution.uniform none] 5
      (LoadCombination.mk "B" 15 0 "ULS") = ULSCaseResult.mk 30000 30000 := by
    norm_num [ulsCase, apply_load_factors, compute_wind_barrier_uniform_and_point,
      shearAt, RAOf, RBOf, totalLoadOf, totalMomentOf, uniformLoadsOf,
      pointLoadsOf, Load.isUniform, Load.isPoint, xAt, spanM, cumtrapz, maxAbsOver]
  have hC : ulsCase 4000 [Load.mk LoadKind.wind 1 Distribution.uniform none] 5
      (LoadCombination.mk "C" 15 0 "ULS") = ULSCaseResult.mk 30000 30000 := by
    norm_num [ulsCase, apply_load_factors, compute_wind_barrier_uniform_and_point,
      shearAt, RAOf, RBOf, totalLoadOf, totalMomentOf, uniformLoadsOf,
      pointLoadsOf, Load.isUniform, Load.isPoint, xAt, spanM, cumtrapz, maxAbsOver]
  have hD : ulsCase 4000 [Load.mk LoadKind.wind 1 Distribution.uniform none] 5
      (LoadCombination.mk "D" 8 0 "ULS") = ULSCaseResult.mk 16000 16000 := by
    norm_num [ulsCase, apply_load_factors, compute_wind_barrier_uniform_and_point,
      shearAt, RAOf, RBOf, totalLoadOf, totalMomentOf, uniformLoadsOf,
      pointLoadsOf, Load.isUniform, Load.isPoint, xAt, spanM, cumtrapz, maxAbsOver]
  have hgov : analyze_uls_cases demoGeom demoLoading demoLCS 5
      = ULSResults.mk
          [("A", ULSCaseResult.mk 20000 20000),
           ("B", ULSCaseResult.mk 30000 30000),
           ("C", ULSCaseResult.mk 30000 30000),
           ("D", ULSCaseResult.mk 16000 16000)]
          (some "B") 30000 (some "B") 30000 := by
    norm_num [analyze_uls_cases, demoGeom, demoLCS, demoULSCases, hbase,
      hA, hB, hC, hD, govFold]
  refine ⟨?_, ?_, ?_, ?_⟩
  · unfold govFold at h ⊢
    rw [List.foldl_append, List.foldl_cons, List.foldl_nil,
      if_neg (not_lt.mpr h)]
  · intro r0 h0
    unfold govFold
    rw [List.foldl_cons, List.foldl_nil, if_pos h0]
  · rw [hgov]
  · rw [hgov]

/-- Witness for uls_governing_first_strict_max: appending a tie ("C", 15)
after ("A", 10), ("B", 15) leaves the governing record at case B. -/
theorem uls_governing_first_strict_max_witness :
    (15 : ℚ) ≤ (govFold (none, 0) [("A", (10 : ℚ)), ("B", 15)]).2
    ∧ (govFold (none, 0) ([("A", (10 : ℚ)), ("B", 15)] ++ [("C", 15)])
        = govFold (none, 0) [("A", (10 : ℚ)), ("B", 15)]
      ∧ (∀ r0 : String × ℚ, 0 < r0.2 →
          govFold (none, 0) [r0] = (some r0.1, r0.2))
      ∧ (analyze_uls_cases demoGeom demoLoading demoLCS 5).case_M = some "B"
      ∧ (analyze_uls_cases demoGeom demoLoading demoLCS 5).case_V = some "B") :=
  ⟨by norm_num [govFold],
   uls_governing_first_strict_max [("A", (10 : ℚ)), ("B", 15)] ("C", 15)
     (by norm_num [govFold])⟩

/-- C5: in analyze_sls_deflection_requirement, each recorded case carries
I_req = v_unit_max / v_limit_m when both v_limit_m and v_unit_max are
positive, and the sentinel 0 (not an exception) whenever v_limit_m <= 0 or
v_unit_max <= 0, with v_limit_m = deflection_limit_mm / 1000. -/
theorem sls_required_I_formula (geom : Geometry) (li : LoadingInputs)
    (lcs : LoadCaseSet) (E lim_mm : ℚ) (n i : ℕ)
    (hi : i < lcs.sls_cases.length) :
    ∃ c r, lcs.sls_cases.get? i = some c
      ∧ (analyze_sls_deflection_requirement geom li lcs E lim_mm n).cases.get? i
        = some (c.name, r)
      ∧ (0 < lim_mm / 1000 → 0 < r.v_unit_max_m →
          r.I_req_m4 = r.v_unit_max_m / (lim_mm / 1000))
      ∧ (lim_mm / 1000 ≤ 0 ∨ r.v_unit_max_m ≤ 0 → r.I_req_m4 = 0) := by
  have hx : lcs.sls_cases.get? i = some (lcs.sls_cases.get ⟨i, hi⟩) :=
    List.get?_eq_get hi
  refine ⟨lcs.sls_cases.get ⟨i, hi⟩,
    slsCase geom.span_mm li.to_loads E (lim_mm / 1000) n
      (lcs.sls_cases.get ⟨i, hi⟩), hx, ?_, ?_, ?_⟩
  · unfold analyze_sls_deflection_requirement
    rw [List.get?_map, hx]
    rfl
  · intro h1 h2
    exact iReqOf_pos _ _ h1 h2
  · intro h
    exact iReqOf_sentinel _ _ h

/-- One SLS combination used to exercise the SLS path concretely. -/
def demoSLSSet : LoadCaseSet :=
  LoadCaseSet.mk [] [LoadCombination.mk "SLS 1" 1 1 "SLS"]

/-- Witness for sls_required_I_formula at the demo SLS set, index 0. -/
theorem sls_required_I_formula_witness :
    0 < demoSLSSet.sls_cases.length
    ∧ ∃ c r, demoSLSSet.sls_cases.get? 0 = some c
      ∧ (analyze_sls_deflection_requirement demoGeom demoLoading demoSLSSet
          1 10 3).cases.get? 0 = some (c.name, r)
      ∧ ((0 : ℚ) < 10 / 1000 → 0 < r.v_unit_max_m →
          r.I_req_m4 = r.v_unit_max_m / (10 / 1000))
      ∧ ((10 : ℚ) / 1000 ≤ 0 ∨ r.v_unit_max_m ≤ 0 → r.I_req_m4 = 0) :=
  ⟨by decide,
   sls_required_I_formula demoGeom demoLoading demoSLSSet 1 10 3 0 (by decide)⟩

/-- C3: on a uniformly spaced grid starting at 0 with at least two samples,
compute_deflection_from_M returns C2 = -v_raw[0] = 0 and
C1 = -(v_raw[last] + C2) / span, and the corrected curve vanishes at both
ends: v[0] = 0 and v[last] = 0. -/
theorem deflection_boundary_conditions (n : ℕ) (step : ℚ) (x M : ℕ → ℚ)
    (E I : ℚ) (hn : 2 ≤ n) (hx : ∀ i, x i = step * i) (hstep : 0 < step)
    (hE : 0 < E) (hI : 0 < I) :
    (compute_deflection_from_M n x M E I).C2 = 0
    ∧ (compute_deflection_from_M n x M E I).C2 = -vRawOf x M E I 0
    ∧ (compute_deflection_from_M n x M E I).C1
        = -(vRawOf x M E I (n - 1) + (compute_deflection_from_M n x M E I).C2)
          / (x (n - 1) - x 0)
    ∧ (compute_deflection_from_M n x M E I).v 0 = 0
    ∧ (compute_deflection_from_M n x M E I).v (n - 1) = 0 := by
  have hx0 : x 0 = 0 := by
    rw [hx 0]
    norm_num
  have hxl : 0 < x (n - 1) := by
    rw [hx (n - 1)]
    have h1 : (1 : ℚ) ≤ ((n - 1 : ℕ) : ℚ) := by
      exact_mod_cast Nat.one_le_iff_ne_zero.mpr (by omega)
    nlinarith
  have hL : 0 < x (n - 1) - x 0 := by rw [hx0]; linarith
  have hv0 : vRawOf x M E I 0 = 0 := rfl
  have hC2 : C2Of x M E I = 0 := by
    unfold C2Of
    rw [hv0, neg_zero]
  have hC1 : C1Of n x M E I
      = -(vRawOf x M E I (n - 1) + C2Of x M E I) / (x (n - 1) - x 0) := by
    unfold C1Of
    rw [if_pos hL]
  refine ⟨hC2, ?_, hC1, ?_, ?_⟩
  · show C2Of x M E I = -vRawOf x M E I 0
    rw [hC2, hv0, neg_zero]
  · show vRawOf x M E I 0 + C1Of n x M E I * x 0 + C2Of x M E I = 0
    rw [hv0, hC2, hx0]
    ring
  · show vRawOf x M E I (n - 1) + C1Of n x M E I * x (n - 1) + C2Of x M E I = 0
    rw [hC1, hC2, hx0]
    have hne : x (n - 1) ≠ 0 := ne_of_gt hxl
    field_simp

/-- Witness for deflection_boundary_conditions on a two-sample unit grid. -/
theorem deflection_boundary_conditions_witness :
    (2 ≤ 2 ∧ (∀ i : ℕ, ((i : ℚ)) = 1 * i) ∧ (0 : ℚ) < 1)
    ∧ ((compute_deflection_from_M 2 (fun i => (i : ℚ)) (fun _ => 6) 1 1).C2 = 0
      ∧ (compute_deflection_from_M 2 (fun i => (i : ℚ)) (fun _ => 6) 1 1).C2
        = -vRawOf (fun i => (i : ℚ)) (fun _ => 6) 1 1 0
      ∧ (compute_deflection_from_M 2 (fun i => (i : ℚ)) (fun _ => 6) 1 1).C1
        = -(vRawOf (fun i => (i : ℚ)) (fun _ => 6) 1 1 (2 - 1)
            + (compute_deflection_from_M 2 (fun i => (i : ℚ)) (fun _ => 6) 1 1).C2)
          / ((((2 - 1 : ℕ)) : ℚ) - ((0 : ℕ) : ℚ))
      ∧ (compute_deflection_from_M 2 (fun i => (i : ℚ)) (fun _ => 6) 1 1).v 0 = 0
      ∧ (compute_deflection_from_M 2 (fun i => (i : ℚ)) (fun _ => 6) 1 1).v (2 - 1)
        = 0) :=
  ⟨⟨le_refl 2, fun i => by norm_num, by norm_num⟩,
   deflection_boundary_conditions 2 1 (fun i => (i : ℚ)) (fun _ => 6) 1 1
     (le_refl 2) (fun i => by norm_num) (by norm_num) (by norm_num) (by norm_num)⟩

/-- C4: for fixed x, M and E the deflection curve is linear in 1 / I: the
curve at I equals the curve at I = 1 divided by I, doubling I halves the
maximum absolute deflection, and the required I = v_unit_max / v_limit
scales inversely with the deflection limit. -/
theorem deflection_linear_in_inverse_I (n : ℕ) (x M : ℕ → ℚ) (E I : ℚ)
    (hI : 0 < I) :
    (∀ i, (compute_deflection_from_M n x M E I).v i
        = (compute_deflection_from_M n x M E 1).v i / I)
    ∧ maxAbsOver (compute_deflection_from_M n x M E (2 * I)).v n
        = maxAbsOver (compute_deflection_from_M n x M E I).v n / 2
    ∧ (∀ v_unit_max v_limit c : ℚ, 0 < v_unit_max → 0 < v_limit → 0 < c →
        iReqOf (c * v_limit) v_unit_max = iReqOf v_limit v_unit_max / c) := by
  refine ⟨fun i => compute_deflection_scale n x M E I i, ?_, ?_⟩
  · have hpt : ∀ i, i < n → (compute_deflection_from_M n x M E (2 * I)).v i
        = (compute_deflection_from_M n x M E I).v i / 2 := by
      intro i _
      rw [compute_deflection_scale n x M E (2 * I) i,
        compute_deflection_scale n x M E I i, div_div, mul_comm]
    rw [maxAbsOver_congr _ _ n hpt,
      maxAbsOver_div (compute_deflection_from_M n x M E I).v 2 (by norm_num) n]
  · intro vum vlim c h1 h2 h3
    rw [iReqOf_pos _ _ (mul_pos h3 h2) h1, iReqOf_pos _ _ h2 h1, div_div,
      mul_comm]

/-- Witness for deflection_linear_in_inverse_I at I = 3 on a three-sample
grid. -/
theorem deflection_linear_in_inverse_I_witness :
    (0 : ℚ) < 3
    ∧ ((∀ i, (compute_deflection_from_M 3 (fun i => (i : ℚ)) (fun i => (i : ℚ)) 2 3).v i
        = (compute_deflection_from_M 3 (fun i => (i : ℚ)) (fun i => (i : ℚ)) 2 1).v i / 3)
      ∧ maxAbsOver
          (compute_deflection_from_M 3 (fun i => (i : ℚ)) (fun i => (i : ℚ)) 2 (2 * 3)).v 3
        = maxAbsOver
            (compute_deflection_from_M 3 (fun i => (i : ℚ)) (fun i => (i : ℚ)) 2 3).v 3 / 2
      ∧ (∀ v_unit_max v_limit c : ℚ, 0 < v_unit_max → 0 < v_limit → 0 < c →
          iReqOf (c * v_limit) v_unit_max = iReqOf v_limit v_unit_max / c)) :=
  ⟨by norm_num,
   deflection_linear_in_inverse_I 3 (fun i => (i : ℚ)) (fun i => (i : ℚ)) 2 3
     (by norm_num)⟩

theorem pointLoadsOf_snd (span_mm : ℚ) (loads : List Load) (pa : ℚ × ℚ)
    (hpa : pa ∈ pointLoadsOf span_mm loads) : pa.2 = spanM span_mm / 2 := by
  unfold pointLoadsOf at hpa
  rcases List.mem_map.mp hpa with ⟨l, _, rfl⟩
  rfl

theorem xAt_zero (span_mm : ℚ) (n : ℕ) : xAt span_mm n 0 = 0 := by
  unfold xAt
  norm_num

theorem xAt_last (span_mm : ℚ) (n : ℕ) (hn : 2 ≤ n) :
    xAt span_mm n (n - 1) = spanM span_mm := by
  unfold xAt
  have hne : ((n - 1 : ℕ) : ℚ) ≠ 0 := by
    exact_mod_cast Nat.one_le_iff_ne_zero.mp (by omega)
  rw [mul_div_assoc, div_self hne, mul_one]

/-- C10: with a positive span and at least two samples, the shear diagram of
compute_wind_barrier_uniform_and_point begins at the left reaction,
V[0] = RA, and closes at V[last] = RA - total load = -RB, because the
midspan-placed point loads are all included at the last sample. -/
theorem shear_diagram_closes (span_mm : ℚ) (loads : List Load) (n : ℕ)
    (hspan : 0 < span_mm) (hn : 2 ≤ n) :
    (compute_wind_barrier_uniform_and_point span_mm loads n).V 0
        = (compute_wind_barrier_uniform_and_point span_mm loads n).RA
    ∧ (compute_wind_barrier_uniform_and_point span_mm loads n).V (n - 1)
        = (compute_wind_barrier_uniform_and_point span_mm loads n).RA
          - totalLoadOf span_mm loads
    ∧ (compute_wind_barrier_uniform_and_point span_mm loads n).V (n - 1)
        = -(compute_wind_barrier_uniform_and_point span_mm loads n).RB := by
  have hL : 0 < spanM span_mm := by
    unfold spanM
    positivity
  have hV0 : shearAt span_mm loads n 0 = RAOf span_mm loads := by
    unfold shearAt
    rw [xAt_zero]
    have huni : ((uniformLoadsOf loads).map (fun w => w * (0 : ℚ))).sum = 0 :=
      List.sum_eq_zero (by
        intro y hy
        rcases List.mem_map.mp hy with ⟨w, _, rfl⟩
        exact mul_zero w)
    have hpt : ((pointLoadsOf span_mm loads).filter
        (fun pa => decide (pa.2 ≤ (0 : ℚ)))) = [] := by
      rw [List.filter_eq_nil]
      intro pa hpa
      rw [pointLoadsOf_snd span_mm loads pa hpa]
      simp only [decide_eq_true_eq, not_le]
      positivity
    rw [huni, hpt]
    simp
  have hVlast : shearAt span_mm loads n (n - 1)
      = RAOf span_mm loads - totalLoadOf span_mm loads := by
    unfold shearAt
    rw [xAt_last span_mm n hn]
    have hpt : ((pointLoadsOf span_mm loads).filter
        (fun pa => decide (pa.2 ≤ spanM span_mm)))
        = pointLoadsOf span_mm loads := by
      rw [List.filter_eq_self]
      intro pa hpa
      rw [pointLoadsOf_snd span_mm loads pa hpa]
      simp only [decide_eq_true_eq]
      linarith
    rw [hpt]
    unfold totalLoadOf
    ring
  refine ⟨hV0, hVlast, ?_⟩
  show shearAt span_mm loads n (n - 1) = -RBOf span_mm loads
  rw [hVlast]
  unfold RAOf
  rw [if_pos hL]
  ring

/-- Witness for shear_diagram_closes at span 2000 mm with one uniform and one
point load over five samples. -/
theorem shear_diagram_closes_witness :
    ((0 : ℚ) < 2000 ∧ 2 ≤ 5)
    ∧ ((compute_wind_barrier_uniform_and_point 2000
          [Load.mk LoadKind.wind 3 Distribution.uniform none,
           Load.mk LoadKind.barrier 700 Distribution.point (some 1100)] 5).V 0
        = (compute_wind_barrier_uniform_and_point 2000
            [Load.mk LoadKind.wind 3 Distribution.uniform none,
             Load.mk LoadKind.barrier 700 Distribution.point (some 1100)] 5).RA
      ∧ (compute_wind_barrier_uniform_and_point 2000
          [Load.mk LoadKind.wind 3 Distribution.uniform none,
           Load.mk LoadKind.barrier 700 Distribution.point (some 1100)] 5).V (5 - 1)
        = (compute_wind_barrier_uniform_and_point 2000
            [Load.mk LoadKind.wind 3 Distribution.uniform none,
             Load.mk LoadKind.barrier 700 Distribution.point (some 1100)] 5).RA
          - totalLoadOf 2000
              [Load.mk LoadKind.wind 3 Distribution.uniform none,
               Load.mk LoadKind.barrier 700 Distribution.point (some 1100)]
      ∧ (compute_wind_barrier_uniform_and_point 2000
          [Load.mk LoadKind.wind 3 Distribution.uniform none,
           Load.mk LoadKind.barrier 700 Distribution.point (some 1100)] 5).V (5 - 1)
        = -(compute_wind_barrier_uniform_and_point 2000
            [Load.mk LoadKind.wind 3 Distribution.uniform none,
             Load.mk LoadKind.barrier 700 Distribution.point (some 1100)] 5).RB) :=
  ⟨⟨by norm_num, by norm_num⟩,
   shear_diagram_closes 2000
     [Load.mk LoadKind.wind 3 Distribution.uniform none,
      Load.mk LoadKind.barrier 700 Distribution.point (some 1100)] 5
     (by norm_num) (by norm_num)⟩

theorem RBOf_single_point (span_mm P : ℚ) (k : LoadKind) (o : Option ℚ)
    (hspan : 0 < span_mm) :
    RBOf span_mm [Load.mk k P Distribution.point o] = P / 2 := by
  have hL : 0 < spanM span_mm := by
    unfold spanM
    positivity
  have hu : uniformLoadsOf [Load.mk k P Distribution.point o] = [] := rfl
  have hp : pointLoadsOf span_mm [Load.mk k P Distribution.point o]
      = [(P, spanM span_mm / 2)] := rfl
  unfold RBOf totalMomentOf
  rw [if_pos hL, hu, hp]
  simp only [List.map_nil, List.sum_nil, List.map_cons, List.sum_cons,
    add_zero, zero_add]
  rw [div_eq_iff (ne_of_gt hL)]
  ring

theorem RAOf_single_point (span_mm P : ℚ) (k : LoadKind) (o : Option ℚ)
    (hspan : 0 < span_mm) :
    RAOf span_mm [Load.mk k P Distribution.point o] = P / 2 := by
  have hL : 0 < spanM span_mm := by
    unfold spanM
    positivity
  have hu : uniformLoadsOf [Load.mk k P Distribution.point o] = [] := rfl
  have hp : pointLoadsOf span_mm [Load.mk k P Distribution.point o]
      = [(P, spanM span_mm / 2)] := rfl
  unfold RAOf
  rw [if_pos hL, RBOf_single_point span_mm P k o hspan]
  unfold totalLoadOf
  rw [hu, hp]
  simp only [List.map_nil, List.sum_nil, List.map_cons, List.sum_cons,
    add_zero, zero_add]
  ring

theorem shearAt_single_point (span_mm P : ℚ) (k : LoadKind) (o : Option ℚ)
    (n i : ℕ) (hspan : 0 < span_mm) :
    shearAt span_mm [Load.mk k P Distribution.point o] n i
      = P / 2 - (if spanM span_mm / 2 ≤ xAt span_mm n i then P else 0) := by
  have hu : uniformLoadsOf [Load.mk k P Distribution.point o] = [] := rfl
  have hp : pointLoadsOf span_mm [Load.mk k P Distribution.point o]
      = [(P, spanM span_mm / 2)] := rfl
  unfold shearAt
  rw [RAOf_single_point span_mm P k o hspan, hu, hp]
  by_cases hc : spanM span_mm / 2 ≤ xAt span_mm n i
  · rw [if_pos hc]
    simp [List.filter_cons, hc]
  · rw [if_neg hc]
    simp [List.filter_cons, hc]

theorem midspan_reached_iff (span_mm : ℚ) (m i : ℕ) (hspan : 0 < span_mm)
    (hm : 1 ≤ m) :
    (spanM span_mm / 2 ≤ xAt span_mm (2 * m + 1) i) ↔ m ≤ i := by
  have hL : 0 < spanM span_mm := by
    unfold spanM
    positivity
  unfold xAt
  have hc : ((2 * m + 1 - 1 : ℕ) : ℚ) = 2 * (m : ℚ) := by
    push_cast [Nat.add_sub_cancel]
    ring
  rw [hc]
  have hden : (0 : ℚ) < 2 * (m : ℚ) := by
    have h1 : (1 : ℚ) ≤ (m : ℚ) := by exact_mod_cast hm
    linarith
  rw [le_div_iff hden]
  have he : spanM span_mm / 2 * (2 * (m : ℚ)) = spanM span_mm * (m : ℚ) := by
    ring
  rw [he, mul_le_mul_left hL, Nat.cast_le]

theorem cumtrapz_midspan_step (P dx : ℚ) (m : ℕ) (hm : 1 ≤ m) (i : ℕ) :
    cumtrapz dx (fun j => if m ≤ j then -(P / 2) else P / 2) i
      = P * dx / 2 * (((min i (m - 1) : ℕ) : ℚ) - ((i - m : ℕ) : ℚ)) := by
  induction i with
  | zero =>
      rw [cumtrapz_zero]
      have e1 : min 0 (m - 1) = 0 := by omega
      have e2 : (0 - m : ℕ) = 0 := by omega
      rw [e1, e2]
      norm_num
  | succ j ih =>
      simp only [cumtrapz_succ]
      rw [ih]
      rcases Nat.lt_or_ge (j + 1) m with hc | hc
      · rw [if_neg (by omega), if_neg (by omega)]
        have e1 : min (j + 1) (m - 1) = j + 1 := by omega
        have e2 : min j (m - 1) = j := by omega
        have e3 : (j + 1 - m : ℕ) = 0 := by omega
        have e4 : (j - m : ℕ) = 0 := by omega
        rw [e1, e2, e3, e4]
        push_cast
        ring
      · rcases Nat.eq_or_lt_of_le hc with hc2 | hc2
        · rw [if_neg (by omega), if_pos (by omega)]
          have e1 : min (j + 1) (m - 1) = j := by omega
          have e2 : min j (m - 1) = j := by omega
          have e3 : (j + 1 - m : ℕ) = 0 := by omega
          have e4 : (j - m : ℕ) = 0 := by omega
          rw [e1, e2, e3, e4]
          push_cast
          ring
        · rw [if_pos (by omega), if_pos (by omega)]
          have e1 : min (j + 1) (m - 1) = m - 1 := by omega
          have e2 : min j (m - 1) = m - 1 := by omega
          have e3 : (j + 1 - m : ℕ) = (j - m) + 1 := by omega
          rw [e1, e2, e3]
          push_cast
          ring

/-- C6 counterexample: for a single point load P = 100 N on a 4000 mm span
with five samples, the solver places the load at midspan but the trapezoidal
moment peaks at 50 N m, not at P * L / 4 = 100 N m: the computed diagram
never attains P * L / 4. -/
theorem single_point_load_midspan_counterexample :
    (compute_wind_barrier_uniform_and_point 4000
        [Load.mk LoadKind.barrier 100 Distribution.point none] 5).M 2 = 50
    ∧ maxAbsOver (compute_wind_barrier_uniform_and_point 4000
        [Load.mk LoadKind.barrier 100 Distribution.point none] 5).M 5 = 50
    ∧ (100 : ℚ) * spanM 4000 / 4 = 100
    ∧ (compute_wind_barrier_uniform_and_point 4000
        [Load.mk LoadKind.barrier 100 Distribution.point none] 5).M 2
      ≠ 100 * spanM 4000 / 4
    ∧ maxAbsOver (compute_wind_barrier_uniform_and_point 4000
        [Load.mk LoadKind.barrier 100 Distribution.point none] 5).M 5
      ≠ 100 * spanM 4000 / 4 := by
  have hM2 : (compute_wind_barrier_uniform_and_point 4000
      [Load.mk LoadKind.barrier 100 Distribution.point none] 5).M 2 = 50 := by
    norm_num [compute_wind_barrier_uniform_and_point, shearAt, RAOf, RBOf,
      totalLoadOf, totalMomentOf, uniformLoadsOf, pointLoadsOf, Load.isUniform,
      Load.isPoint, xAt, spanM, cumtrapz]
  have hMmax : maxAbsOver (compute_wind_barrier_uniform_and_point 4000
      [Load.mk LoadKind.barrier 100 Distribution.point none] 5).M 5 = 50 := by
    norm_num [compute_wind_barrier_uniform_and_point, shearAt, RAOf, RBOf,
      totalLoadOf, totalMomentOf, uniformLoadsOf, pointLoadsOf, Load.isUniform,
      Load.isPoint, xAt, spanM, cumtrapz, maxAbsOver]
  have hPL : (100 : ℚ) * spanM 4000 / 4 = 100 := by norm_num [spanM]
  refine ⟨hM2, hMmax, hPL, ?_, ?_⟩
  · rw [hM2, hPL]
    norm_num
  · rw [hMmax, hPL]
    norm_num

/-- C6 amended: for a single point load P placed at midspan of a span with
n = 2m + 1 samples (m at least 2), the computed shear steps from +P/2 on the
samples before midspan to -P/2 from the midspan sample on, while the computed
moment attains its maximum magnitude P*L/4 - P*dx/2 (one half-interval short
of the continuum value P*L/4, dx = L/(2m)) at the midspan sample. -/
theorem single_point_load_discrete_profile (span_mm P : ℚ) (k : LoadKind)
    (o : Option ℚ) (m : ℕ) (hspan : 0 < span_mm) (hP : 0 < P) (hm : 2 ≤ m) :
    (∀ i, i < m →
      (compute_wind_barrier_uniform_and_point span_mm
        [Load.mk k P Distribution.point o] (2 * m + 1)).V i = P / 2)
    ∧ (∀ i, m ≤ i →
      (compute_wind_barrier_uniform_and_point span_mm
        [Load.mk k P Distribution.point o] (2 * m + 1)).V i = -(P / 2))
    ∧ (compute_wind_barrier_uniform_and_point span_mm
        [Load.mk k P Distribution.point o] (2 * m + 1)).M m
      = P * spanM span_mm / 4 - P * (spanM span_mm / (2 * m)) / 2
    ∧ maxAbsOver (compute_wind_barrier_uniform_and_point span_mm
        [Load.mk k P Distribution.point o] (2 * m + 1)).M (2 * m + 1)
      = P * spanM span_mm / 4 - P * (spanM span_mm / (2 * m)) / 2 := by
  have hL : 0 < spanM span_mm := by
    unfold spanM
    positivity
  have hm1 : 1 ≤ m := by omega
  have hmq : (0 : ℚ) < (m : ℚ) := by exact_mod_cast Nat.lt_of_lt_of_le Nat.zero_lt_two hm
  have hmq0 : ((m : ℚ)) ≠ 0 := ne_of_gt hmq
  have hV : ∀ i, shearAt span_mm [Load.mk k P Distribution.point o]
      (2 * m + 1) i = if m ≤ i then -(P / 2) else P / 2 := by
    intro i
    rw [shearAt_single_point span_mm P k o (2 * m + 1) i hspan]
    by_cases hc : m ≤ i
    · rw [if_pos ((midspan_reached_iff span_mm m i hspan hm1).mpr hc),
        if_pos hc]
      ring
    · rw [if_neg (fun hcc =>
          hc ((midspan_reached_iff span_mm m i hspan hm1).mp hcc)),
        if_neg hc]
      ring
  have hdx : xAt span_mm (2 * m + 1) 1 - xAt span_mm (2 * m + 1) 0
      = spanM span_mm / (2 * m) := by
    rw [xAt_zero]
    unfold xAt
    have hc : ((2 * m + 1 - 1 : ℕ) : ℚ) = 2 * (m : ℚ) := by
      push_cast [Nat.add_sub_cancel]
      ring
    rw [hc]
    push_cast
    ring
  have hM : ∀ i, (compute_wind_barrier_uniform_and_point span_mm
      [Load.mk k P Distribution.point o] (2 * m + 1)).M i
      = P * (spanM span_mm / (2 * m)) / 2
        * (((min i (m - 1) : ℕ) : ℚ) - ((i - m : ℕ) : ℚ)) := by
    intro i
    show cumtrapz (xAt span_mm (2 * m + 1) 1 - xAt span_mm (2 * m + 1) 0)
        (shearAt span_mm [Load.mk k P Distribution.point o] (2 * m + 1)) i = _
    rw [cumtrapz_congr _ _ (fun j => if m ≤ j then -(P / 2) else P / 2) i
        (fun j _ => hV j), hdx,
      cumtrapz_midspan_step P (spanM span_mm / (2 * m)) m hm1 i]
  have hdxpos : 0 < P * (spanM span_mm / (2 * m)) / 2 := by positivity
  have hcast : ((m - 1 : ℕ) : ℚ) = (m : ℚ) - 1 := by
    push_cast [Nat.cast_sub hm1]
    ring
  have hC1 : (1 : ℚ) ≤ ((m - 1 : ℕ) : ℚ) := by
    rw [hcast]
    have h2 : (2 : ℚ) ≤ (m : ℚ) := by exact_mod_cast hm
    linarith
  have hBval : P * (spanM span_mm / (2 * m)) / 2 * ((m - 1 : ℕ) : ℚ)
      = P * spanM span_mm / 4 - P * (spanM span_mm / (2 * m)) / 2 := by
    rw [hcast]
    field_simp
    ring
  have hMm : (compute_wind_barrier_uniform_and_point span_mm
      [Load.mk k P Distribution.point o] (2 * m + 1)).M m
      = P * (spanM span_mm / (2 * m)) / 2 * ((m - 1 : ℕ) : ℚ) := by
    rw [hM m]
    have e1 : min m (m - 1) = m - 1 := by omega
    have e2 : (m - m : ℕ) = 0 := by omega
    rw [e1, e2, Nat.cast_zero, sub_zero]
  have hB0 : 0 ≤ P * (spanM span_mm / (2 * m)) / 2 * ((m - 1 : ℕ) : ℚ) := by
    positivity
  refine ⟨?_, ?_, ?_, ?_⟩
  · intro i hi
    show shearAt span_mm [Load.mk k P Distribution.point o] (2 * m + 1) i = _
    rw [hV i, if_neg (by omega)]
  · intro i hi
    show shearAt span_mm [Load.mk k P Distribution.point o] (2 * m + 1) i = _
    rw [hV i, if_pos hi]
  · rw [hMm, hBval]
  · have hbound : ∀ i, i < 2 * m + 1 →
        |(compute_wind_barrier_uniform_and_point span_mm
          [Load.mk k P Distribution.point o] (2 * m + 1)).M i|
        ≤ P * (spanM span_mm / (2 * m)) / 2 * ((m - 1 : ℕ) : ℚ) := by
      intro i hi
      rw [hM i, abs_mul, abs_of_pos hdxpos]
      apply mul_le_mul_of_nonneg_left _ (le_of_lt hdxpos)
      rw [abs_le]
      rcases Nat.lt_or_ge i m with hcase | hcase
      · have e4 : (i - m : ℕ) = 0 := by omega
        rw [e4, Nat.cast_zero, sub_zero]
        constructor
        · have h1 : (0 : ℚ) ≤ ((min i (m - 1) : ℕ) : ℚ) := Nat.cast_nonneg _
          have h2 : (0 : ℚ) ≤ ((m - 1 : ℕ) : ℚ) := Nat.cast_nonneg _
          linarith
        · exact_mod_cast Nat.min_le_right i (m - 1)
      · have e1 : min i (m - 1) = m - 1 := by omega
        rw [e1]
        have hble : ((i - m : ℕ) : ℚ) ≤ (m : ℚ) := by
          exact_mod_cast Nat.sub_le_of_le_add (by omega)
        have hb0 : (0 : ℚ) ≤ ((i - m : ℕ) : ℚ) := Nat.cast_nonneg _
        have hmC : (m : ℚ) = ((m - 1 : ℕ) : ℚ) + 1 := by
          rw [hcast]
          ring
        constructor
        · rw [hmC] at hble
          linarith
        · linarith
    have hle : maxAbsOver (compute_wind_barrier_uniform_and_point span_mm
        [Load.mk k P Distribution.point o] (2 * m + 1)).M (2 * m + 1)
        ≤ P * (spanM span_mm / (2 * m)) / 2 * ((m - 1 : ℕ) : ℚ) :=
      maxAbsOver_le _ _ _ hB0 hbound
    have hge : P * (spanM span_mm / (2 * m)) / 2 * ((m - 1 : ℕ) : ℚ)
        ≤ maxAbsOver (compute_wind_barrier_uniform_and_point span_mm
          [Load.mk k P Distribution.point o] (2 * m + 1)).M (2 * m + 1) := by
      have h1 := le_maxAbsOver (compute_wind_barrier_uniform_and_point span_mm
        [Load.mk k P Distribution.point o] (2 * m + 1)).M (2 * m + 1) m
        (by omega)
      rw [hMm, abs_of_nonneg hB0] at h1
      exact h1
    rw [← hBval]
    exact le_antisymm hle hge

/-- Witness for single_point_load_discrete_profile at span 4000 mm,
P = 100 N, m = 2 (five samples). -/
theorem single_point_load_discrete_profile_witness :
    ((0 : ℚ) < 4000 ∧ (0 : ℚ) < 100 ∧ 2 ≤ 2)
    ∧ ((∀ i, i < 2 →
        (compute_wind_barrier_uniform_and_point 4000
          [Load.mk LoadKind.barrier 100 Distribution.point (some 1100)]
          (2 * 2 + 1)).V i = 100 / 2)
      ∧ (∀ i, 2 ≤ i →
        (compute_wind_barrier_uniform_and_point 4000
          [Load.mk LoadKind.barrier 100 Distribution.point (some 1100)]
          (2 * 2 + 1)).V i = -(100 / 2))
      ∧ (compute_wind_barrier_uniform_and_point 4000
          [Load.mk LoadKind.barrier 100 Distribution.point (some 1100)]
          (2 * 2 + 1)).M 2
        = 100 * spanM 4000 / 4 - 100 * (spanM 4000 / (2 * 2)) / 2
      ∧ maxAbsOver (compute_wind_barrier_uniform_and_point 4000
          [Load.mk LoadKind.barrier 100 Distribution.point (some 1100)]
          (2 * 2 + 1)).M (2 * 2 + 1)
        = 100 * spanM 4000 / 4 - 100 * (spanM 4000 / (2 * 2)) / 2) :=
  ⟨⟨by norm_num, by norm_num, le_refl 2⟩,
   single_point_load_discrete_profile 4000 100 LoadKind.barrier (some 1100) 2
     (by norm_num) (by norm_num) (le_refl 2)⟩

end MullionWidget
